import Mathlib

/-!
Shallow embedding of the multi-agent travel planning demo
(`backend/agents/__init__.py`, `agents/travel_agents.py`,
`agents/multi_agent_orchestrator.py`, `backend/modules/hotel_estimator.py`).

Python dictionaries are modelled as association lists in insertion order
(keys are unique in every dict the code builds); Python objects that are
mutated through aliases (agents referenced both by the hub and by each
other's `collaboration_network`) are modelled by a single store keyed by
`agent_id`, with `collaboration_network` holding the keys.  Python floats
are modelled as rationals.  Fields the claims never touch
(`knowledge_base`, message timestamps and ids) are not modelled.
-/

namespace TravelMAS

/-- Lookup in a Python dict modelled as an association list:
`d.get(k)` / `d[k]` returns the value of the unique entry with key `k`. -/
def dictGet? {κ α : Type} [BEq κ] (l : List (κ × α)) (k : κ) : Option α :=
  (l.find? (fun p => p.1 == k)).map Prod.snd

/-- Python dict assignment `d[k] = v`: an existing key keeps its position and
gets the new value, a new key is appended at the end (insertion order). -/
def dictSet {κ α : Type} [BEq κ] (l : List (κ × α)) (k : κ) (v : α) : List (κ × α) :=
  if l.any (fun p => p.1 == k) then
    l.map (fun p => if p.1 == k then (k, v) else p)
  else l ++ [(k, v)]

/-- Python `k in d` on a dict. -/
def dictHasKey {κ α : Type} [BEq κ] (l : List (κ × α)) (k : κ) : Bool :=
  l.any (fun p => p.1 == k)

/-- `AgentRole(Enum)` from `backend/agents/__init__.py`. -/
inductive AgentRole where
  | COORDINATOR
  | TRAVEL_ADVISOR
  | BUDGET_OPTIMIZER
  | WEATHER_ANALYST
  | LOCAL_EXPERT
  | ITINERARY_PLANNER
  deriving DecidableEq, Repr

/-- `MessageType(Enum)` from `backend/agents/__init__.py`. -/
inductive MessageType where
  | REQUEST
  | RESPONSE
  | BROADCAST
  | QUERY
  | RECOMMENDATION
  deriving DecidableEq, Repr

/-- `Message` from `backend/agents/__init__.py`, parametric in the content
type `C` (contents are arbitrary Python dicts).  The wall-clock timestamp
and the derived `id` field play no role in any claim and are not modelled. -/
structure Message (C : Type) where
  sender : String
  receiver : String
  msg_type : MessageType
  content : C
  deriving DecidableEq, Repr

/-- The mutable state of a `BaseAgent`.  `collaboration_network` is the
list of keys of the Python dict `agent_id -> agent object`; the objects
themselves live in the surrounding store (`World`). -/
structure BaseAgent (C : Type) where
  agent_id : String
  role : AgentRole
  capabilities : List String
  message_queue : List (Message C)
  is_active : Bool
  collaboration_network : List String
  deriving DecidableEq, Repr

/-- `BaseAgent.receive_message`: append the message to the in-memory queue. -/
def receive_message {C : Type} (a : BaseAgent C) (m : Message C) : BaseAgent C :=
  { a with message_queue := a.message_queue ++ [m] }

/-- The `while self.message_queue: ... pop(0) ...` loop of
`BaseAgent.process_message_queue`: drain the queue front-first, collecting
the non-`None` results of `process_message` (modelled by the pure `pm`;
no concrete agent's `process_message` touches any queue). -/
def drainLoop {C : Type} (pm : Message C → Option (Message C)) :
    List (Message C) → List (Message C) → List (Message C) × List (Message C)
  | [], responses => (responses, [])
  | m :: rest, responses =>
    match pm m with
    | some r => drainLoop pm rest (responses ++ [r])
    | none => drainLoop pm rest responses

/-- `BaseAgent.process_message_queue`: returns the updated agent and the
collected responses. -/
def process_message_queue {C : Type} (pm : Message C → Option (Message C))
    (a : BaseAgent C) : BaseAgent C × List (Message C) :=
  let res := drainLoop pm a.message_queue []
  ({ a with message_queue := res.2 }, res.1)

/-- A store of agent objects keyed by `agent_id` (Python object aliasing:
every reference to an agent goes through its id). -/
abbrev World (C : Type) : Type := List (String × BaseAgent C)

/-- Deliver a message to the agent object stored under `receiver`
(a call `obj.receive_message(m)` on the aliased object). -/
def deliverTo {C : Type} (w : World C) (receiver : String) (m : Message C) : World C :=
  w.map (fun p => if p.1 == receiver then (p.1, receive_message p.2 m) else p)

/-- `BaseAgent.send_message`, acting on the store: the sender object is
`w[sender_id]`; if `receiver in self.collaboration_network` a fresh message
is delivered to the receiver object and `True` is returned, else `False`. -/
def send_message {C : Type} (w : World C) (sender_id receiver : String)
    (msg_type : MessageType) (content : C) : World C × Bool :=
  match dictGet? w sender_id with
  | some sender =>
    if receiver ∈ sender.collaboration_network then
      (deliverTo w receiver (Message.mk sender.agent_id receiver msg_type content), true)
    else (w, false)
  | none => (w, false)

/-- Python dict insert used by `connect_agent` on `collaboration_network`:
keys keep their position, new keys are appended. -/
def networkAdd (l : List String) (k : String) : List String :=
  if k ∈ l then l else l ++ [k]

/-- Record `other` in the collaboration network of the agent stored under
`aid`. -/
def addToNetwork {C : Type} (w : World C) (aid other : String) : World C :=
  w.map (fun p =>
    if p.1 == aid then
      (p.1, { p.2 with collaboration_network := networkAdd p.2.collaboration_network other })
    else p)

/-- `BaseAgent.connect_agent`: a symmetric update of both collaboration
networks. -/
def connect_agent {C : Type} (w : World C) (id1 id2 : String) : World C :=
  addToNetwork (addToNetwork w id1 id2) id2 id1

/-- `AgentCommunicationHub` state: the registered-agents dict and the
message log. -/
structure Hub (C : Type) where
  agents : World C
  message_log : List (Message C)
  deriving DecidableEq, Repr

/-- `AgentCommunicationHub.register_agent`. -/
def register_agent {C : Type} (hub : Hub C) (a : BaseAgent C) : Hub C :=
  { hub with agents := dictSet hub.agents a.agent_id a }

/-- `AgentCommunicationHub.connect_all_agents`: the double loop over the
registered agents, connecting every pair of distinct agents. -/
def connect_all_agents {C : Type} (hub : Hub C) : Hub C :=
  let ids := hub.agents.map Prod.fst
  { hub with
    agents := ids.foldl
      (fun w a => ids.foldl (fun w2 b => if a == b then w2 else connect_agent w2 a b) w)
      hub.agents }

/-- The broadcast message built for recipient `aid` in
`AgentCommunicationHub.broadcast_message`. -/
def broadcastMsg {C : Type} (sender_id aid : String) (content : C) : Message C :=
  Message.mk sender_id aid MessageType.BROADCAST content

/-- One iteration of the loop in `broadcast_message`: skip the sender,
deliver to everyone else and append the message to the hub log. -/
def broadcastDeliver {C : Type} (sender_id : String) (content : C)
    (hub : Hub C) (aid : String) : Hub C :=
  if aid == sender_id then hub
  else
    { agents := deliverTo hub.agents aid (broadcastMsg sender_id aid content),
      message_log := hub.message_log ++ [broadcastMsg sender_id aid content] }

/-- `AgentCommunicationHub.broadcast_message`: guarded by
`sender_id in self.agents`, loops over the registered agents; the
`responses` list it returns is never populated. -/
def broadcast_message {C : Type} (hub : Hub C) (sender_id : String) (content : C) :
    Hub C × List (Message C) :=
  if dictHasKey hub.agents sender_id then
    ((hub.agents.map Prod.fst).foldl (broadcastDeliver sender_id content) hub, [])
  else (hub, [])

/-- The decision context handed to `AgentDecisionEngine`; the code only
reads `context.get('primary_concern')` and compares it with the strings
`'budget'`, `'weather'` and `'local_insights'`. -/
structure DecisionContext where
  primary_concern : Option String
  deriving DecidableEq, Repr

/-- The dict returned by `AgentDecisionEngine._synthesize_recommendations`,
parametric in the recommendation type `R` (recommendations are arbitrary
Python dicts produced by `generate_recommendation`). -/
structure Decision (R : Type) where
  primary_recommendation : Option R
  confidence_score : ℚ
  supporting_evidence : List R
  alternative_options : List R
  consensus_level : ℚ
  deriving DecidableEq, Repr

/-- One element of the `all_recommendations` list built in
`_synthesize_recommendations`. -/
structure WeightedRec (R : Type) where
  agent : String
  recommendation : R
  weight : ℚ
  deriving DecidableEq, Repr

/-- The `base_weight` computed for one agent inside
`AgentDecisionEngine._calculate_agent_weights`: starts at `1.0` and the
`if`/`elif` chain raises it to `2.0` for the matching expertise. -/
def base_weight_for (context : DecisionContext) (role : AgentRole) : ℚ :=
  if context.primary_concern = some "budget" ∧ role = AgentRole.BUDGET_OPTIMIZER then 2
  else if context.primary_concern = some "weather" ∧ role = AgentRole.WEATHER_ANALYST then 2
  else if context.primary_concern = some "local_insights" ∧ role = AgentRole.LOCAL_EXPERT then 2
  else 1

/-- The body of the loop in `AgentDecisionEngine._calculate_agent_weights`:
an id registered in the hub gets its `base_weight` stored in the `weights`
dict, an unregistered id is skipped. -/
def weights_step {C : Type} (hub : Hub C) (context : DecisionContext)
    (weights : List (String × ℚ)) (aid : String) : List (String × ℚ) :=
  match dictGet? hub.agents aid with
  | some agent => dictSet weights aid (base_weight_for context agent.role)
  | none => weights

/-- `AgentDecisionEngine._calculate_agent_weights`: loop over
`recommendations.keys()`, starting from an empty `weights` dict. -/
def calculate_agent_weights {C R : Type} (hub : Hub C)
    (recommendations : List (String × R)) (context : DecisionContext) :
    List (String × ℚ) :=
  recommendations.foldl (fun weights p => weights_step hub context weights p.1) []

/-- The weight `weights.get(agent_id, 1.0)` attached to one entry of
`all_recommendations` in `_synthesize_recommendations`. -/
def entry_weight {C R : Type} (hub : Hub C) (recommendations : List (String × R))
    (context : DecisionContext) (aid : String) : ℚ :=
  (dictGet? (calculate_agent_weights hub recommendations context) aid).getD 1

/-- CPython `max(l, key=f)` on a nonempty list: scan left to right and
replace the current best exactly when the key strictly increases, so the
first element with maximal key wins; `none` on the empty list (where the
builtin raises). -/
def pymax? {α : Type} (key : α → ℚ) : List α → Option α
  | [] => none
  | x :: xs => some (xs.foldl (fun best y => if key y > key best then y else best) x)

/-- `AgentDecisionEngine._synthesize_recommendations`. -/
def synthesize_recommendations {C R : Type} (hub : Hub C)
    (recommendations : List (String × R)) (context : DecisionContext) : Decision R :=
  let weights := calculate_agent_weights hub recommendations context
  let base : Decision R :=
    { primary_recommendation := none, confidence_score := 0,
      supporting_evidence := [], alternative_options := [], consensus_level := 0 }
  if recommendations.isEmpty then base
  else
    let all_recommendations := recommendations.map
      (fun p => WeightedRec.mk p.1 p.2 ((dictGet? weights p.1).getD 1))
    match pymax? (fun wr => wr.weight) all_recommendations with
    | none => base
    | some best_rec =>
      { primary_recommendation := some best_rec.recommendation,
        confidence_score := best_rec.weight,
        supporting_evidence := all_recommendations.map (fun wr => wr.recommendation),
        alternative_options := [],
        consensus_level := (all_recommendations.length : ℚ) / (recommendations.length : ℚ) }

/-- Step 1 of `AgentDecisionEngine.collaborative_decision`: build the
`recommendations` dict from the involved agents that are registered in the
hub.  `generate_recommendation` is abstract on `BaseAgent`; it is modelled
by the pure `genRec` (no implementation in `travel_agents.py` touches any
message queue or other mutable state). -/
def gather_recommendations {C R : Type} (genRec : String → BaseAgent C → DecisionContext → R)
    (hub : Hub C) (decision_context : DecisionContext) (involved_agents : List String) :
    List (String × R) :=
  involved_agents.foldl
    (fun recs aid =>
      match dictGet? hub.agents aid with
      | some agent => dictSet recs aid (genRec aid agent decision_context)
      | none => recs)
    []

/-- `AgentDecisionEngine.collaborative_decision`: gather recommendations,
synthesize them, then broadcast the final decision under the sender id
`"decision_engine"`; `encode` builds the broadcast content dict
`{'decision': ..., 'context': ..., 'contributing_agents': ...}` in the
hub's content type. -/
def collaborative_decision {C R : Type}
    (encode : Decision R → DecisionContext → List String → C)
    (genRec : String → BaseAgent C → DecisionContext → R)
    (hub : Hub C) (decision_context : DecisionContext) (involved_agents : List String) :
    Hub C × Decision R :=
  let recommendations := gather_recommendations genRec hub decision_context involved_agents
  let final_decision := synthesize_recommendations hub recommendations decision_context
  let broadcastRes := broadcast_message hub "decision_engine"
    (encode final_decision decision_context involved_agents)
  (broadcastRes.1, final_decision)

/-- A freshly constructed agent (`BaseAgent.__init__`): empty queue, active,
empty collaboration network. -/
def mkAgent (C : Type) (agent_id : String) (role : AgentRole)
    (capabilities : List String) : BaseAgent C :=
  { agent_id := agent_id, role := role, capabilities := capabilities,
    message_queue := [], is_active := true, collaboration_network := [] }

/-- `CoordinatorAgent.__init__` (`agents/travel_agents.py`). -/
def CoordinatorAgent_init (C : Type) : BaseAgent C :=
  mkAgent C "coordinator" AgentRole.COORDINATOR
    ["agent_orchestration", "decision_synthesis", "conflict_resolution", "workflow_management"]

/-- `TravelAdvisorAgent.__init__`. -/
def TravelAdvisorAgent_init (C : Type) : BaseAgent C :=
  mkAgent C "travel_advisor" AgentRole.TRAVEL_ADVISOR
    ["destination_expertise", "attraction_recommendations", "cultural_insights"]

/-- `BudgetOptimizerAgent.__init__`. -/
def BudgetOptimizerAgent_init (C : Type) : BaseAgent C :=
  mkAgent C "budget_optimizer" AgentRole.BUDGET_OPTIMIZER
    ["cost_analysis", "budget_optimization", "deal_finding"]

/-- `WeatherAnalystAgent.__init__`. -/
def WeatherAnalystAgent_init (C : Type) : BaseAgent C :=
  mkAgent C "weather_analyst" AgentRole.WEATHER_ANALYST
    ["weather_analysis", "activity_optimization", "packing_advice"]

/-- `LocalExpertAgent.__init__`. -/
def LocalExpertAgent_init (C : Type) : BaseAgent C :=
  mkAgent C "local_expert" AgentRole.LOCAL_EXPERT
    ["local_insights", "real_time_updates", "hidden_gems", "cultural_guidance"]

/-- `ItineraryPlannerAgent.__init__`. -/
def ItineraryPlannerAgent_init (C : Type) : BaseAgent C :=
  mkAgent C "itinerary_planner" AgentRole.ITINERARY_PLANNER
    ["route_optimization", "timing_coordination", "logistics_planning", "schedule_balancing"]

/-- The `self.agents` dict literal of `MultiAgentTravelOrchestrator.__init__`,
in insertion order. -/
def orchestrator_agents (C : Type) : List (BaseAgent C) :=
  [CoordinatorAgent_init C, TravelAdvisorAgent_init C, BudgetOptimizerAgent_init C,
   WeatherAnalystAgent_init C, LocalExpertAgent_init C, ItineraryPlannerAgent_init C]

/-- The communication hub as `MultiAgentTravelOrchestrator.__init__` leaves
it: every agent registered, then `connect_all_agents()`. -/
def MultiAgentTravelOrchestrator_init (C : Type) : Hub C :=
  connect_all_agents
    ((orchestrator_agents C).foldl register_agent { agents := [], message_log := [] })

/-- Python `str.lower()`. -/
def pyLower (s : String) : String := s.toLower

/-- Python list slice `l[:k]` for an integer bound `k`: a negative bound
counts from the end (clipped at zero). -/
def pyTake {α : Type} (k : Int) (l : List α) : List α :=
  if k < 0 then l.take ((l.length : Int) + k).toNat else l.take k.toNat

/-- One row of `TravelAdvisorAgent.destination_expertise`. -/
structure DestinationInfo where
  must_visit : List String
  hidden_gems : List String
  cultural_tips : List String
  best_areas : List String
  transport_tips : List String
  deriving DecidableEq, Repr

/-- `TravelAdvisorAgent.destination_expertise` (`agents/travel_agents.py`). -/
def destination_expertise : List (String × DestinationInfo) :=
  [("北京",
    { must_visit := ["故宫", "天安门广场", "长城", "天坛"],
      hidden_gems := ["南锣鼓巷", "798艺术区", "什刹海", "雍和宫"],
      cultural_tips := ["排队礼仪", "茶文化", "京剧欣赏"],
      best_areas := ["王府井", "三里屯", "后海", "前门"],
      transport_tips := ["地铁一卡通", "市区步行", "共享单车"] }),
   ("上海",
    { must_visit := ["外滩", "东方明珠", "豫园", "南京路"],
      hidden_gems := ["田子坊", "新天地", "1933老场坊", "多伦路"],
      cultural_tips := ["海派文化", "小笼包礼仪", "夜生活"],
      best_areas := ["淮海路", "徐家汇", "陆家嘴", "静安"],
      transport_tips := ["交通卡", "地铁网络", "黄浦江轮渡"] }),
   ("广州",
    { must_visit := ["广州塔", "陈家祠", "沙面", "白云山"],
      hidden_gems := ["红砖厂", "永庆坊", "荔枝湾", "石室圣心大教堂"],
      cultural_tips := ["粤语文化", "早茶礼仪", "岭南建筑"],
      best_areas := ["天河城", "北京路", "上下九", "珠江新城"],
      transport_tips := ["羊城通", "地铁网络", "避开高峰期"] })]

/-- `TravelAdvisorAgent._get_food_recommendations`. -/
def get_food_recommendations (destination : String) : List String :=
  let food_recs : List (String × List String) :=
    [("london", ["Traditional pub lunch", "Fish and chips", "Afternoon tea", "Sunday roast"]),
     ("paris", ["Café culture", "Boulangerie pastries", "Wine tasting", "Bistro dining"]),
     ("tokyo", ["Sushi omakase", "Ramen shops", "Izakaya experience", "Street food"])]
  (dictGet? food_recs destination).getD
    ["Local specialties", "Street food", "Traditional restaurants"]

/-- The context dict read by `TravelAdvisorAgent.generate_recommendation`:
`destination` (default `''`), `interests` (default `[]`) and `duration`
(default `3`). -/
structure AdvisorContext where
  destination : String
  interests : List String
  duration : Int
  deriving DecidableEq, Repr

/-- The recommendation dict built by
`TravelAdvisorAgent.generate_recommendation`; the `recommendations` entry
is itself a dict from string keys to lists of strings. -/
structure AdvisorRecommendation where
  agent : String
  rec_type : String
  confidence : ℚ
  recommendations : List (String × List String)
  deriving DecidableEq, Repr

/-- `TravelAdvisorAgent.generate_recommendation`: the initial dict carries
confidence `0.8`, the known-destination branch fills the expertise-based
entries and raises confidence to `0.9`, the fallback branch stores four
items of general advice and lowers confidence to `0.6`. -/
def advisor_generate_recommendation (context : AdvisorContext) : AdvisorRecommendation :=
  let destination := pyLower context.destination
  let interests := context.interests
  let duration := context.duration
  let recommendation : AdvisorRecommendation :=
    { agent := "travel_advisor", rec_type := "travel_advice",
      confidence := 0.8, recommendations := [] }
  match dictGet? destination_expertise destination with
  | some dest_info =>
    let must_visit := pyTake (min duration (dest_info.must_visit.length : Int))
      dest_info.must_visit
    let recs0 := dictSet recommendation.recommendations "must_visit" must_visit
    let recs1 :=
      if "culture" ∈ interests ∨ "history" ∈ interests then
        dictSet recs0 "cultural_sites" dest_info.cultural_tips
      else recs0
    let recs2 :=
      if "food" ∈ interests then
        dictSet recs1 "food_experiences" (get_food_recommendations destination)
      else recs1
    let recs3 := dictSet recs2 "hidden_gems" (dest_info.hidden_gems.take 2)
    let recs4 := dictSet recs3 "transport_tips" dest_info.transport_tips
    let recs5 := dictSet recs4 "best_areas" dest_info.best_areas
    { recommendation with recommendations := recs5, confidence := 0.9 }
  | none =>
    let recs := dictSet recommendation.recommendations "general_advice"
      ["研究当地习俗和礼仪", "下载离线地图和翻译应用",
       "尝试当地美食和特色菜", "既要游览著名地标，也要探索当地社区"]
    { recommendation with recommendations := recs, confidence := 0.6 }

/-- One row of `HotelEstimator.budget_price_ranges` (per-night CNY). -/
structure PriceRange where
  lo : ℚ
  hi : ℚ
  avg : ℚ
  deriving DecidableEq, Repr

/-- `HotelEstimator.budget_price_ranges` from
`backend/modules/hotel_estimator.py`. -/
def budget_price_ranges : List (String × PriceRange) :=
  [("经济型", { lo := 200, hi := 560, avg := 350 }),
   ("中等预算", { lo := 560, hi := 1400, avg := 910 }),
   ("豪华型", { lo := 1400, hi := 3500, avg := 2100 })]

/-- `HotelEstimator.city_multipliers`. -/
def city_multipliers : List (String × ℚ) :=
  [("北京", 1.6), ("上海", 1.7), ("广州", 1.4), ("深圳", 1.5),
   ("杭州", 1.3), ("成都", 1.2), ("西安", 1.1), ("南京", 1.2),
   ("default", 1.0)]

/-- The `price_level_multipliers` dict local to
`HotelEstimator._estimate_hotel_price` (Google's 0-4 price levels). -/
def price_level_multipliers : List (Int × ℚ) :=
  [(0, 0.6), (1, 0.8), (2, 1.0), (3, 1.3), (4, 1.8)]

/-- Round half to even on the integers, the tie-breaking rule of Python's
builtin `round`. -/
def roundHalfEven (q : ℚ) : ℤ :=
  if q - ⌊q⌋ < 1/2 then ⌊q⌋
  else if q - ⌊q⌋ > 1/2 then ⌊q⌋ + 1
  else if 2 ∣ ⌊q⌋ then ⌊q⌋ else ⌊q⌋ + 1

/-- Python `round(x, 2)`. -/
def pyRound2 (q : ℚ) : ℚ := (roundHalfEven (q * 100) : ℚ) / 100

/-- `HotelEstimator._estimate_hotel_price`.  The call
`random.uniform(0.9, 1.1)` is modelled by the explicit parameter `r`. -/
def estimate_hotel_price (destination budget_range : String) (price_level : Int)
    (rating : ℚ) (r : ℚ) : ℚ :=
  let base_range := (dictGet? budget_price_ranges budget_range).getD
    ((dictGet? budget_price_ranges "中等预算").getD { lo := 0, hi := 0, avg := 0 })
  let base_price := base_range.avg
  let city_key := pyLower destination
  let multiplier := (dictGet? city_multipliers city_key).getD
    ((dictGet? city_multipliers "default").getD 0)
  let price_multiplier := (dictGet? price_level_multipliers price_level).getD 1.0
  let rating_multiplier : ℚ :=
    if rating ≥ 4.5 then 1.2
    else if rating ≥ 4.0 then 1.1
    else if rating < 3.5 then 0.9
    else 1.0
  let final_price := base_price * multiplier * price_multiplier * rating_multiplier
  pyRound2 (final_price * r)

/-- Modelled from the claim's wording, for comparison with
`estimate_hotel_price`: the deterministic product of the budget range's
average nightly price (the `中等预算` row for unknown ranges), the city
multiplier of the lower-cased destination (`1.0` for cities not in the
table), the price-level multiplier (`1.0` outside levels 0-4), and the
rating multiplier (`1.2` for rating ≥ 4.5, `1.1` for 4.0 ≤ rating < 4.5,
`0.9` for rating < 3.5, `1.0` otherwise). -/
def claim_base_price (destination budget_range : String) (price_level : Int)
    (rating : ℚ) : ℚ :=
  (match dictGet? budget_price_ranges budget_range with
   | some row => row.avg
   | none => 910) *
  (match dictGet? city_multipliers (pyLower destination) with
   | some m => m
   | none => 1) *
  (if 0 ≤ price_level ∧ price_level ≤ 4 then
     (dictGet? price_level_multipliers price_level).getD 1
   else 1) *
  (if 4.5 ≤ rating then 1.2
   else if 4 ≤ rating ∧ rating < 4.5 then 1.1
   else if rating < 3.5 then 0.9
   else 1)

/-- A step of the loop in `broadcast_message`, restricted to the agents
dict: the sender is skipped, every other id receives the broadcast message
(proof-side reformulation of `broadcastDeliver`). -/
def broadcastAgentsStep {C : Type} (sender_id : String) (content : C)
    (w : World C) (aid : String) : World C :=
  if aid = sender_id then w else deliverTo w aid (broadcastMsg sender_id aid content)

/-- The registered agents are pairwise connected: every two entries with
distinct keys list each other's id in their collaboration networks. -/
def worldFullyConnected {C : Type} (w : World C) : Bool :=
  w.all (fun p => w.all (fun q =>
    (p.1 == q.1) || (q.2.collaboration_network.contains p.1
      && p.2.collaboration_network.contains q.1)))

/-- Forget the message content (used to transfer facts that do not depend
on the content type to the computable `Unit` instance). -/
def eraseMsg {C : Type} (m : Message C) : Message Unit :=
  { sender := m.sender, receiver := m.receiver, msg_type := m.msg_type, content := () }

/-- Forget the message contents held by an agent. -/
def eraseAgent {C : Type} (a : BaseAgent C) : BaseAgent Unit :=
  { agent_id := a.agent_id, role := a.role, capabilities := a.capabilities,
    message_queue := a.message_queue.map eraseMsg, is_active := a.is_active,
    collaboration_network := a.collaboration_network }

/-- Forget the message contents of a whole store. -/
def eraseWorld {C : Type} (w : World C) : World Unit :=
  w.map (fun p => (p.1, eraseAgent p.2))

/-- Forget the message contents of a hub. -/
def eraseHub {C : Type} (hub : Hub C) : Hub Unit :=
  { agents := eraseWorld hub.agents, message_log := hub.message_log.map eraseMsg }

/-- A concrete two-agent store (content type `Nat`) used to instantiate the
framework theorems: `"a"` is connected to `"b"` but not conversely. -/
def testAgentA : BaseAgent Nat :=
  { agent_id := "a", role := AgentRole.COORDINATOR, capabilities := [],
    message_queue := [], is_active := true, collaboration_network := ["b"] }

/-- Second agent of the concrete test store. -/
def testAgentB : BaseAgent Nat :=
  { agent_id := "b", role := AgentRole.BUDGET_OPTIMIZER, capabilities := [],
    message_queue := [], is_active := true, collaboration_network := [] }

/-- The concrete test store. -/
def testWorld : World Nat := [("a", testAgentA), ("b", testAgentB)]

/-- A hub over the concrete test store with an empty message log. -/
def testHub : Hub Nat := { agents := testWorld, message_log := [] }

/-! ### Lemmas about the dict model -/

theorem dictGet?_cons {κ α : Type} [BEq κ] [LawfulBEq κ] [DecidableEq κ]
    (k' : κ) (v : α) (t : List (κ × α)) (k : κ) :
    dictGet? ((k', v) :: t) k = if k' = k then some v else dictGet? t k := by
  by_cases h : k' = k <;> simp [dictGet?, List.find?_cons, h]

theorem dictGet?_pair_cons {κ α : Type} [BEq κ] [LawfulBEq κ] [DecidableEq κ]
    (p : κ × α) (t : List (κ × α)) (k : κ) :
    dictGet? (p :: t) k = if p.1 = k then some p.2 else dictGet? t k :=
  dictGet?_cons p.1 p.2 t k

theorem dictGet?_mem_keys {κ α : Type} [BEq κ] [LawfulBEq κ] [DecidableEq κ]
    (l : List (κ × α)) (k : κ) (v : α) (h : dictGet? l k = some v) :
    k ∈ l.map Prod.fst := by
  induction l with
  | nil => simp [dictGet?] at h
  | cons p t ih =>
    rw [dictGet?_pair_cons] at h
    by_cases hk : p.1 = k
    · simp [hk]
    · rw [if_neg hk] at h
      simp [ih h]

theorem dictGet?_map_update_self {κ α : Type} [BEq κ] [LawfulBEq κ] [DecidableEq κ]
    (l : List (κ × α)) (k : κ) (v : α)
    (h : l.any (fun p => p.1 == k) = true) :
    dictGet? (l.map (fun p => if p.1 == k then (k, v) else p)) k = some v := by
  induction l with
  | nil => simp at h
  | cons p t ih =>
    simp only [List.map_cons]
    by_cases hk : p.1 = k
    · simp [hk, dictGet?_cons]
    · have hb : (p.1 == k) = false := beq_eq_false_iff_ne.mpr hk
      have h' : t.any (fun p => p.1 == k) = true := by
        simpa [List.any_cons, hb] using h
      simp only [hb, Bool.false_eq_true, if_false]
      rw [dictGet?_pair_cons, if_neg hk]
      exact ih h'

theorem dictGet?_map_update_ne {κ α : Type} [BEq κ] [LawfulBEq κ] [DecidableEq κ]
    (l : List (κ × α)) (k k' : κ) (v : α) (h : k ≠ k') :
    dictGet? (l.map (fun p => if p.1 == k then (k, v) else p)) k' = dictGet? l k' := by
  induction l with
  | nil => simp
  | cons p t ih =>
    simp only [List.map_cons]
    by_cases hk : p.1 = k
    · simp only [hk, beq_self_eq_true, if_true]
      rw [dictGet?_cons, if_neg h, dictGet?_pair_cons, if_neg (by rw [hk]; exact h)]
      exact ih
    · have hb : (p.1 == k) = false := beq_eq_false_iff_ne.mpr hk
      simp only [hb, Bool.false_eq_true, if_false]
      rw [dictGet?_pair_cons, dictGet?_pair_cons]
      by_cases hk' : p.1 = k'
      · simp [hk']
      · rw [if_neg hk', if_neg hk']
        exact ih

theorem dictGet?_append_single_self {κ α : Type} [BEq κ] [LawfulBEq κ] [DecidableEq κ]
    (l : List (κ × α)) (k : κ) (v : α)
    (h : l.any (fun p => p.1 == k) = false) :
    dictGet? (l ++ [(k, v)]) k = some v := by
  induction l with
  | nil => simp [dictGet?_cons]
  | cons p t ih =>
    have h1 : ¬p.1 = k := by
      intro hc
      simp [List.any_cons, hc] at h
    have h2 : t.any (fun p => p.1 == k) = false := by
      simpa [List.any_cons, h1] using h
    simp only [List.cons_append]
    rw [dictGet?_pair_cons, if_neg h1]
    exact ih h2

theorem dictGet?_append_single_ne {κ α : Type} [BEq κ] [LawfulBEq κ] [DecidableEq κ]
    (l : List (κ × α)) (k k' : κ) (v : α) (h : k ≠ k') :
    dictGet? (l ++ [(k, v)]) k' = dictGet? l k' := by
  induction l with
  | nil => simp [dictGet?_cons, dictGet?, h]
  | cons p t ih =>
    simp only [List.cons_append]
    rw [dictGet?_pair_cons, dictGet?_pair_cons]
    by_cases hk' : p.1 = k'
    · simp [hk']
    · rw [if_neg hk', if_neg hk']
      exact ih

theorem dictGet?_dictSet_self {κ α : Type} [BEq κ] [LawfulBEq κ] [DecidableEq κ]
    (l : List (κ × α)) (k : κ) (v : α) :
    dictGet? (dictSet l k v) k = some v := by
  unfold dictSet
  cases hA : l.any (fun p => p.1 == k) with
  | true => simpa using dictGet?_map_update_self l k v hA
  | false => simpa using dictGet?_append_single_self l k v hA

theorem dictGet?_dictSet_ne {κ α : Type} [BEq κ] [LawfulBEq κ] [DecidableEq κ]
    (l : List (κ × α)) (k k' : κ) (v : α) (h : k ≠ k') :
    dictGet? (dictSet l k v) k' = dictGet? l k' := by
  unfold dictSet
  cases hA : l.any (fun p => p.1 == k) with
  | true => simpa using dictGet?_map_update_ne l k k' v h
  | false => simpa using dictGet?_append_single_ne l k k' v h

/-! ### C2: FIFO queue behaviour of `receive_message` and
`process_message_queue` -/

theorem foldl_receive_message {C : Type} (a : BaseAgent C)
    (delivered : List (Message C)) :
    (delivered.foldl receive_message a).message_queue
      = a.message_queue ++ delivered := by
  induction delivered generalizing a with
  | nil => simp
  | cons m rest ih => simp [receive_message, ih]

theorem drainLoop_spec {C : Type} (pm : Message C → Option (Message C))
    (q acc : List (Message C)) :
    drainLoop pm q acc = (acc ++ q.filterMap pm, []) := by
  induction q generalizing acc with
  | nil => simp [drainLoop]
  | cons m rest ih =>
    cases h : pm m with
    | some r => simp [drainLoop, h, ih]
    | none => simp [drainLoop, h, ih]

/-- C2: `receive_message` appends each delivered message at the end of the
in-memory `message_queue`, and `process_message_queue` drains the queue
front-first, returning exactly the non-`None` results of `process_message`
in arrival order and leaving the queue empty. -/
theorem claim_C2_message_queue_fifo {C : Type}
    (pm : Message C → Option (Message C)) (a : BaseAgent C)
    (delivered : List (Message C)) :
    (delivered.foldl receive_message a).message_queue
        = a.message_queue ++ delivered ∧
    (process_message_queue pm (delivered.foldl receive_message a)).2
        = (a.message_queue ++ delivered).filterMap pm ∧
    (process_message_queue pm (delivered.foldl receive_message a)).1.message_queue
        = [] := by
  refine ⟨foldl_receive_message a delivered, ?_, ?_⟩ <;>
    simp [process_message_queue, drainLoop_spec, foldl_receive_message]

/-! ### C8: `broadcast_message` always returns the empty response list -/

/-- C8: the `responses` list initialised by
`AgentCommunicationHub.broadcast_message` is never populated, so the method
returns the empty list for every hub state, sender and content. -/
theorem claim_C8_broadcast_returns_empty {C : Type} (hub : Hub C)
    (sender_id : String) (content : C) :
    (broadcast_message hub sender_id content).2 = [] := by
  unfold broadcast_message
  split <;> rfl

/-! ### Lemmas about message delivery through the store -/

theorem deliverTo_cons {C : Type} (p : String × BaseAgent C) (t : World C)
    (r : String) (m : Message C) :
    deliverTo (p :: t) r m
      = (if p.1 == r then (p.1, receive_message p.2 m) else p) :: deliverTo t r m := rfl

theorem dictGet?_deliverTo {C : Type} (w : World C) (r : String) (m : Message C)
    (aid : String) :
    dictGet? (deliverTo w r m) aid =
      if aid = r then (dictGet? w aid).map (fun a => receive_message a m)
      else dictGet? w aid := by
  induction w with
  | nil => by_cases h : aid = r <;> simp [deliverTo, dictGet?, h]
  | cons p t ih =>
    rw [deliverTo_cons]
    by_cases hk : p.1 = r
    · simp only [hk, beq_self_eq_true, if_true]
      rw [dictGet?_cons]
      by_cases ha : aid = r
      · subst ha
        rw [if_pos rfl, if_pos rfl, dictGet?_pair_cons, if_pos hk]
        rfl
      · have ha2 : ¬r = aid := fun hc => ha hc.symm
        rw [if_neg ha2, ih, if_neg ha, if_neg ha, dictGet?_pair_cons,
          if_neg (show ¬p.1 = aid by rw [hk]; exact ha2)]
    · have hb : (p.1 == r) = false := beq_eq_false_iff_ne.mpr hk
      simp only [hb, Bool.false_eq_true, if_false]
      rw [dictGet?_pair_cons, dictGet?_pair_cons]
      by_cases ha : p.1 = aid
      · have : ¬aid = r := by rw [← ha]; exact hk
        simp [ha, this]
      · rw [if_neg ha, if_neg ha, ih]

theorem keys_deliverTo {C : Type} (w : World C) (r : String) (m : Message C) :
    (deliverTo w r m).map Prod.fst = w.map Prod.fst := by
  induction w with
  | nil => rfl
  | cons p t ih =>
    rw [deliverTo_cons]
    by_cases hk : p.1 = r
    · simp only [hk, beq_self_eq_true, if_true, List.map_cons, ih]
    · have hb : (p.1 == r) = false := beq_eq_false_iff_ne.mpr hk
      simp only [hb, Bool.false_eq_true, if_false, List.map_cons, ih]

/-! ### C7: `send_message` delivers exactly when the receiver is in the
sender's collaboration network -/

/-- C7: `BaseAgent.send_message` returns `True` iff the receiver id is a key
of the sender's `collaboration_network`; on `True` exactly one new message
with this sender, receiver, type and content is appended to the receiver's
queue (every other agent is untouched), and on `False` nothing changes. -/
theorem claim_C7_send_message_spec {C : Type} (w : World C)
    (sender_id receiver : String) (t : MessageType) (content : C)
    (sender : BaseAgent C) (hs : dictGet? w sender_id = some sender) :
    ((send_message w sender_id receiver t content).2 = true
        ↔ receiver ∈ sender.collaboration_network) ∧
    ((send_message w sender_id receiver t content).2 = false →
        (send_message w sender_id receiver t content).1 = w) ∧
    (∀ aid, aid ≠ receiver →
        dictGet? (send_message w sender_id receiver t content).1 aid
          = dictGet? w aid) ∧
    (∀ a, dictGet? w receiver = some a →
        dictGet? (send_message w sender_id receiver t content).1 receiver =
          if receiver ∈ sender.collaboration_network
          then some { a with message_queue := a.message_queue
              ++ [Message.mk sender.agent_id receiver t content] }
          else some a) := by
  unfold send_message
  rw [hs]
  by_cases hm : receiver ∈ sender.collaboration_network
  · simp only [hm, if_true]
    refine ⟨by simp, by simp, ?_, ?_⟩
    · intro aid ha
      simp only [dictGet?_deliverTo, if_neg ha]
    · intro a ha
      simp [dictGet?_deliverTo, ha, receive_message]
  · simp only [hm, if_false]
    refine ⟨by simp [hm], by simp, by simp, ?_⟩
    intro a ha
    simp [ha]

/-- Witness for C7 at the concrete two-agent store. -/
theorem claim_C7_send_message_spec_witness :
    dictGet? testWorld "a" = some testAgentA ∧
    (((send_message testWorld "a" "b" MessageType.REQUEST 5).2 = true
        ↔ "b" ∈ testAgentA.collaboration_network) ∧
    ((send_message testWorld "a" "b" MessageType.REQUEST 5).2 = false →
        (send_message testWorld "a" "b" MessageType.REQUEST 5).1 = testWorld) ∧
    (∀ aid, aid ≠ "b" →
        dictGet? (send_message testWorld "a" "b" MessageType.REQUEST 5).1 aid
          = dictGet? testWorld aid) ∧
    (∀ a, dictGet? testWorld "b" = some a →
        dictGet? (send_message testWorld "a" "b" MessageType.REQUEST 5).1 "b" =
          if "b" ∈ testAgentA.collaboration_network
          then some { a with message_queue := a.message_queue
              ++ [Message.mk testAgentA.agent_id "b" MessageType.REQUEST 5] }
          else some a)) :=
  ⟨rfl, claim_C7_send_message_spec testWorld "a" "b" MessageType.REQUEST 5 testAgentA rfl⟩

/-! ### C4: frame conditions of `broadcast_message` -/

theorem foldl_broadcastDeliver_split {C : Type} (s : String) (c : C)
    (ks : List String) (hub : Hub C) :
    ks.foldl (broadcastDeliver s c) hub =
      { agents := ks.foldl (broadcastAgentsStep s c) hub.agents,
        message_log := hub.message_log
          ++ (ks.filter (fun aid => aid ≠ s)).map (fun aid => broadcastMsg s aid c) } := by
  induction ks generalizing hub with
  | nil => simp
  | cons k ks ih =>
    simp only [List.foldl_cons, List.filter_cons]
    by_cases hk : k = s
    · have hb : (k == s) = true := by simpa using hk
      have hd : (decide (k ≠ s)) = false := by simp [hk]
      rw [show broadcastDeliver s c hub k = hub by simp [broadcastDeliver, hb]]
      rw [ih, show broadcastAgentsStep s c hub.agents k = hub.agents by
        simp [broadcastAgentsStep, hk]]
      simp [hd]
    · have hb : (k == s) = false := beq_eq_false_iff_ne.mpr hk
      have hd : (decide (k ≠ s)) = true := by simp [hk]
      rw [show broadcastDeliver s c hub k
          = { agents := deliverTo hub.agents k (broadcastMsg s k c),
              message_log := hub.message_log ++ [broadcastMsg s k c] } by
        simp [broadcastDeliver, hb]]
      rw [ih]
      rw [show broadcastAgentsStep s c hub.agents k
          = deliverTo hub.agents k (broadcastMsg s k c) by
        simp [broadcastAgentsStep, hk]]
      simp [hd]

theorem keys_broadcastAgentsFold {C : Type} (s : String) (c : C)
    (ks : List String) (w : World C) :
    (ks.foldl (broadcastAgentsStep s c) w).map Prod.fst = w.map Prod.fst := by
  induction ks generalizing w with
  | nil => rfl
  | cons k ks ih =>
    simp only [List.foldl_cons]
    rw [ih]
    unfold broadcastAgentsStep
    split
    · rfl
    · exact keys_deliverTo w k (broadcastMsg s k c)

theorem dictGet?_broadcastAgentsFold {C : Type} (s : String) (c : C)
    (ks : List String) (w : World C) (aid : String) (hnd : ks.Nodup) :
    dictGet? (ks.foldl (broadcastAgentsStep s c) w) aid =
      if aid ∈ ks ∧ aid ≠ s
      then (dictGet? w aid).map (fun a => receive_message a (broadcastMsg s aid c))
      else dictGet? w aid := by
  induction ks generalizing w with
  | nil => simp
  | cons k ks ih =>
    have hk_not : k ∉ ks := (List.nodup_cons.mp hnd).1
    have hnd' : ks.Nodup := (List.nodup_cons.mp hnd).2
    simp only [List.foldl_cons]
    by_cases hk : k = s
    · rw [show broadcastAgentsStep s c w k = w by simp [broadcastAgentsStep, hk]]
      rw [ih w hnd']
      by_cases h1 : aid ∈ ks ∧ aid ≠ s
      · rw [if_pos h1, if_pos ⟨List.mem_cons_of_mem k h1.1, h1.2⟩]
      · rw [if_neg h1, if_neg ?_]
        intro hc
        rcases List.mem_cons.mp hc.1 with h | h
        · exact hc.2 (h.trans hk)
        · exact h1 ⟨h, hc.2⟩
    · rw [show broadcastAgentsStep s c w k
          = deliverTo w k (broadcastMsg s k c) by simp [broadcastAgentsStep, hk]]
      rw [ih _ hnd']
      by_cases h1 : aid ∈ ks ∧ aid ≠ s
      · have hak : aid ≠ k := fun hc => hk_not (hc ▸ h1.1)
        rw [if_pos h1, if_pos ⟨List.mem_cons_of_mem k h1.1, h1.2⟩,
          dictGet?_deliverTo, if_neg hak]
      · rw [if_neg h1, dictGet?_deliverTo]
        by_cases hak : aid = k
        · subst hak
          rw [if_pos rfl, if_pos ⟨List.mem_cons_self aid ks, hk⟩]
        · rw [if_neg hak, if_neg ?_]
          intro hc
          rcases List.mem_cons.mp hc.1 with h | h
          · exact hak h
          · exact h1 ⟨h, hc.2⟩

/-- C4: with a registered sender, `broadcast_message` appends exactly one
`BROADCAST` message carrying the content to the queue of every other
registered agent and logs those messages in registration order; the
sender's queue and the registered key set are unchanged.  With an
unregistered sender nothing changes at all. -/
theorem claim_C4_broadcast_message_spec {C : Type} (hub : Hub C)
    (s : String) (c : C) (hnd : (hub.agents.map Prod.fst).Nodup) :
    (dictHasKey hub.agents s = true →
      ((broadcast_message hub s c).1.agents.map Prod.fst = hub.agents.map Prod.fst) ∧
      (∀ aid a, aid ≠ s → dictGet? hub.agents aid = some a →
        dictGet? (broadcast_message hub s c).1.agents aid
          = some { a with message_queue := a.message_queue ++ [broadcastMsg s aid c] }) ∧
      (dictGet? (broadcast_message hub s c).1.agents s = dictGet? hub.agents s) ∧
      ((broadcast_message hub s c).1.message_log
        = hub.message_log
          ++ ((hub.agents.map Prod.fst).filter (fun aid => aid ≠ s)).map
              (fun aid => broadcastMsg s aid c))) ∧
    (dictHasKey hub.agents s = false → (broadcast_message hub s c).1 = hub) := by
  constructor
  · intro hreg
    rw [show (broadcast_message hub s c).1
        = (hub.agents.map Prod.fst).foldl (broadcastDeliver s c) hub by
      simp [broadcast_message, hreg]]
    rw [foldl_broadcastDeliver_split]
    refine ⟨keys_broadcastAgentsFold s c _ hub.agents, ?_, ?_, rfl⟩
    · intro aid a ha hga
      rw [dictGet?_broadcastAgentsFold s c _ hub.agents aid hnd,
        if_pos ⟨dictGet?_mem_keys hub.agents aid a hga, ha⟩, hga]
      rfl
    · rw [dictGet?_broadcastAgentsFold s c _ hub.agents s hnd,
        if_neg (fun hc => hc.2 rfl)]
  · intro hreg
    simp [broadcast_message, hreg]

/-- Witness for C4 at the concrete two-agent hub. -/
theorem claim_C4_broadcast_message_spec_witness :
    (testHub.agents.map Prod.fst).Nodup ∧
    ((dictHasKey testHub.agents "a" = true →
      ((broadcast_message testHub "a" 7).1.agents.map Prod.fst
          = testHub.agents.map Prod.fst) ∧
      (∀ aid a, aid ≠ "a" → dictGet? testHub.agents aid = some a →
        dictGet? (broadcast_message testHub "a" 7).1.agents aid
          = some { a with message_queue := a.message_queue ++ [broadcastMsg "a" aid 7] }) ∧
      (dictGet? (broadcast_message testHub "a" 7).1.agents "a"
          = dictGet? testHub.agents "a") ∧
      ((broadcast_message testHub "a" 7).1.message_log
        = testHub.message_log
          ++ ((testHub.agents.map Prod.fst).filter (fun aid => aid ≠ "a")).map
              (fun aid => broadcastMsg "a" aid 7))) ∧
    (dictHasKey testHub.agents "a" = false → (broadcast_message testHub "a" 7).1 = testHub)) :=
  ⟨by decide, claim_C4_broadcast_message_spec testHub "a" 7 (by decide)⟩

/-! ### C5: the decision engine's final broadcast is a silent no-op -/

/-- C5: when no registered agent has id `"decision_engine"`,
`collaborative_decision` returns the synthesized decision while leaving
every registered agent's queue and the hub's log unchanged: its step-3
broadcast has an unregistered sender and delivers nothing. -/
theorem claim_C5_collaborative_decision_frame {C R : Type}
    (encode : Decision R → DecisionContext → List String → C)
    (genRec : String → BaseAgent C → DecisionContext → R)
    (hub : Hub C) (ctx : DecisionContext) (involved : List String)
    (h : dictHasKey hub.agents "decision_engine" = false) :
    (collaborative_decision encode genRec hub ctx involved).1 = hub ∧
    (collaborative_decision encode genRec hub ctx involved).2
      = synthesize_recommendations hub
          (gather_recommendations genRec hub ctx involved) ctx := by
  unfold collaborative_decision
  simp [broadcast_message, h]

set_option maxRecDepth 65536

set_option maxHeartbeats 2000000

/-- Witness for C5 at the orchestrator's six-agent hub, where
`"decision_engine"` is indeed not registered. -/
theorem claim_C5_collaborative_decision_frame_witness :
    dictHasKey (MultiAgentTravelOrchestrator_init Nat).agents "decision_engine" = false ∧
    ((collaborative_decision (fun _ _ _ => 0) (fun _ _ _ => (0 : Nat))
        (MultiAgentTravelOrchestrator_init Nat) { primary_concern := some "budget" }
        ["travel_advisor", "budget_optimizer"]).1
      = MultiAgentTravelOrchestrator_init Nat ∧
    (collaborative_decision (fun _ _ _ => 0) (fun _ _ _ => (0 : Nat))
        (MultiAgentTravelOrchestrator_init Nat) { primary_concern := some "budget" }
        ["travel_advisor", "budget_optimizer"]).2
      = synthesize_recommendations (MultiAgentTravelOrchestrator_init Nat)
          (gather_recommendations (fun _ _ _ => (0 : Nat))
            (MultiAgentTravelOrchestrator_init Nat) { primary_concern := some "budget" }
            ["travel_advisor", "budget_optimizer"])
          { primary_concern := some "budget" }) :=
  ⟨by decide,
   claim_C5_collaborative_decision_frame (fun _ _ _ => 0) (fun _ _ _ => (0 : Nat))
     (MultiAgentTravelOrchestrator_init Nat) { primary_concern := some "budget" }
     ["travel_advisor", "budget_optimizer"] (by decide)⟩

/-! ### C6: the orchestrator's hub holds six fully connected agents -/

theorem keys_eraseWorld {C : Type} (w : World C) :
    (eraseWorld w).map Prod.fst = w.map Prod.fst := by
  simp [eraseWorld, List.map_map, Function.comp]

theorem list_any_map {α β : Type} (f : α → β) (l : List α) (p : β → Bool) :
    (l.map f).any p = l.any (fun a => p (f a)) := by
  induction l with
  | nil => rfl
  | cons x t ih => simp [List.any_cons, ih]

theorem list_all_map {α β : Type} (f : α → β) (l : List α) (p : β → Bool) :
    (l.map f).all p = l.all (fun a => p (f a)) := by
  induction l with
  | nil => rfl
  | cons x t ih => simp [List.all_cons, ih]

theorem any_eraseWorld {C : Type} (w : World C) (k : String) :
    (eraseWorld w).any (fun p => p.1 == k) = w.any (fun p => p.1 == k) := by
  unfold eraseWorld
  rw [list_any_map]

theorem eraseWorld_dictSet {C : Type} (w : World C) (k : String) (a : BaseAgent C) :
    eraseWorld (dictSet w k a) = dictSet (eraseWorld w) k (eraseAgent a) := by
  unfold dictSet
  rw [any_eraseWorld]
  by_cases h : w.any (fun p => p.1 == k) = true
  · rw [if_pos h, if_pos h]
    unfold eraseWorld
    rw [List.map_map, List.map_map]
    congr 1
    funext p
    by_cases hk : p.1 = k <;> simp [Function.comp, hk]
  · rw [if_neg h, if_neg h]
    simp [eraseWorld]

theorem eraseWorld_addToNetwork {C : Type} (w : World C) (aid other : String) :
    eraseWorld (addToNetwork w aid other) = addToNetwork (eraseWorld w) aid other := by
  unfold addToNetwork eraseWorld
  rw [List.map_map, List.map_map]
  congr 1
  funext p
  by_cases hk : p.1 = aid <;> simp [Function.comp, hk, eraseAgent]

theorem eraseWorld_connect_agent {C : Type} (w : World C) (id1 id2 : String) :
    eraseWorld (connect_agent w id1 id2) = connect_agent (eraseWorld w) id1 id2 := by
  unfold connect_agent
  rw [eraseWorld_addToNetwork, eraseWorld_addToNetwork]

theorem eraseWorld_connect_inner {C : Type} (ids : List String) (a : String)
    (w : World C) :
    eraseWorld (ids.foldl (fun w2 b => if a == b then w2 else connect_agent w2 a b) w)
      = ids.foldl (fun w2 b => if a == b then w2 else connect_agent w2 a b)
          (eraseWorld w) := by
  induction ids generalizing w with
  | nil => rfl
  | cons b bs ih =>
    simp only [List.foldl_cons]
    rw [ih]
    congr 1
    cases h : a == b
    · simp [h, eraseWorld_connect_agent]
    · simp [h]

theorem eraseWorld_connect_double {C : Type} (outer inner : List String)
    (w : World C) :
    eraseWorld (outer.foldl
        (fun w1 a => inner.foldl
          (fun w2 b => if a == b then w2 else connect_agent w2 a b) w1) w)
      = outer.foldl
          (fun w1 a => inner.foldl
            (fun w2 b => if a == b then w2 else connect_agent w2 a b) w1)
          (eraseWorld w) := by
  induction outer generalizing w with
  | nil => rfl
  | cons a as ih =>
    simp only [List.foldl_cons]
    rw [ih, eraseWorld_connect_inner]

theorem eraseHub_connect_all {C : Type} (hub : Hub C) :
    eraseHub (connect_all_agents hub) = connect_all_agents (eraseHub hub) := by
  simp only [connect_all_agents, eraseHub, keys_eraseWorld]
  rw [eraseWorld_connect_double]

theorem eraseHub_register {C : Type} (hub : Hub C) (a : BaseAgent C) :
    eraseHub (register_agent hub a) = register_agent (eraseHub hub) (eraseAgent a) := by
  simp only [register_agent, eraseHub, eraseWorld_dictSet]
  rfl

theorem eraseHub_orchestrator_init (C : Type) :
    eraseHub (MultiAgentTravelOrchestrator_init C)
      = MultiAgentTravelOrchestrator_init Unit := by
  unfold MultiAgentTravelOrchestrator_init orchestrator_agents
  simp only [List.foldl_cons, List.foldl_nil]
  rw [eraseHub_connect_all, eraseHub_register, eraseHub_register, eraseHub_register,
    eraseHub_register, eraseHub_register, eraseHub_register]
  rfl

theorem worldFullyConnected_eraseWorld {C : Type} (w : World C) :
    worldFullyConnected (eraseWorld w) = worldFullyConnected w := by
  unfold worldFullyConnected eraseWorld
  rw [list_all_map]
  congr 1
  funext p
  rw [list_all_map]
  rfl

/-- C6: after `MultiAgentTravelOrchestrator.__init__`, the hub has exactly
the six agents `coordinator`, `travel_advisor`, `budget_optimizer`,
`weather_analyst`, `local_expert`, `itinerary_planner` (in registration
order), and every pair of distinct registered agents appear in each
other's `collaboration_network`. -/
theorem claim_C6_orchestrator_init_spec (C : Type) :
    (MultiAgentTravelOrchestrator_init C).agents.map Prod.fst
      = ["coordinator", "travel_advisor", "budget_optimizer",
         "weather_analyst", "local_expert", "itinerary_planner"] ∧
    worldFullyConnected (MultiAgentTravelOrchestrator_init C).agents = true := by
  have hproj : ∀ (D : Type) (hub : Hub D), eraseWorld hub.agents = (eraseHub hub).agents :=
    fun _ _ => rfl
  have hAg : (eraseHub (MultiAgentTravelOrchestrator_init C)).agents
      = (MultiAgentTravelOrchestrator_init Unit).agents :=
    congrArg Hub.agents (eraseHub_orchestrator_init C)
  have h1 : (MultiAgentTravelOrchestrator_init Unit).agents.map Prod.fst
      = ["coordinator", "travel_advisor", "budget_optimizer",
         "weather_analyst", "local_expert", "itinerary_planner"] := by decide
  have h2 : worldFullyConnected (MultiAgentTravelOrchestrator_init Unit).agents
      = true := by decide
  constructor
  · rw [← keys_eraseWorld, hproj C, hAg]
    exact h1
  · rw [← worldFullyConnected_eraseWorld, hproj C, hAg]
    exact h2

/-! ### C3: the hard-coded expertise weights -/

theorem weights_step_get {C : Type} (hub : Hub C) (ctx : DecisionContext)
    (ws : List (String × ℚ)) (k aid : String) :
    dictGet? (weights_step hub ctx ws k) aid =
      if k = aid then
        (match dictGet? hub.agents k with
         | some agent => some (base_weight_for ctx agent.role)
         | none => dictGet? ws aid)
      else dictGet? ws aid := by
  unfold weights_step
  cases hA : dictGet? hub.agents k with
  | none => by_cases hk : k = aid <;> simp [hk]
  | some agent =>
    by_cases hk : k = aid
    · subst hk
      simp [dictGet?_dictSet_self]
    · simp [hk, dictGet?_dictSet_ne _ _ _ _ hk]

theorem weights_fold_get {C : Type} (hub : Hub C) (ctx : DecisionContext)
    (ks : List String) (init : List (String × ℚ)) (aid : String)
    (hnd : ks.Nodup) :
    dictGet? (ks.foldl (weights_step hub ctx) init) aid =
      if aid ∈ ks then
        (match dictGet? hub.agents aid with
         | some agent => some (base_weight_for ctx agent.role)
         | none => dictGet? init aid)
      else dictGet? init aid := by
  induction ks generalizing init with
  | nil => simp
  | cons k t ih =>
    have hk_not : k ∉ t := (List.nodup_cons.mp hnd).1
    have hnd' : t.Nodup := (List.nodup_cons.mp hnd).2
    simp only [List.foldl_cons]
    rw [ih _ hnd']
    by_cases hmem : aid ∈ t
    · have hne : k ≠ aid := fun hc => hk_not (hc ▸ hmem)
      rw [if_pos hmem, if_pos (List.mem_cons_of_mem k hmem)]
      cases hA : dictGet? hub.agents aid with
      | some agent => rfl
      | none => rw [weights_step_get, if_neg hne]
    · by_cases hak : k = aid
      · subst hak
        rw [if_neg hmem, weights_step_get, if_pos rfl,
          if_pos (List.mem_cons_self k t)]
      · have : ¬aid ∈ k :: t := by
          intro hc
          rcases List.mem_cons.mp hc with h | h
          · exact hak h.symm
          · exact hmem h
        rw [if_neg hmem, if_neg this, weights_step_get, if_neg hak]

theorem base_weight_for_eq_or (ctx : DecisionContext) (role : AgentRole) :
    base_weight_for ctx role =
      if (ctx.primary_concern = some "budget" ∧ role = AgentRole.BUDGET_OPTIMIZER)
       ∨ (ctx.primary_concern = some "weather" ∧ role = AgentRole.WEATHER_ANALYST)
       ∨ (ctx.primary_concern = some "local_insights" ∧ role = AgentRole.LOCAL_EXPERT)
      then 2 else 1 := by
  unfold base_weight_for
  split_ifs <;> first | rfl | tauto

/-- C3: `_calculate_agent_weights` gives every id of the recommendations
map that is registered in the hub the weight `2.0` exactly when the
context's `primary_concern` matches the agent's specialised role
(`budget`/`BUDGET_OPTIMIZER`, `weather`/`WEATHER_ANALYST`,
`local_insights`/`LOCAL_EXPERT`) and `1.0` otherwise; unregistered ids get
no entry in the returned weights dict. -/
theorem claim_C3_calculate_agent_weights_spec {C R : Type} (hub : Hub C)
    (recs : List (String × R)) (ctx : DecisionContext) (aid : String)
    (hnd : (recs.map Prod.fst).Nodup) :
    dictGet? (calculate_agent_weights hub recs ctx) aid =
      match dictGet? hub.agents aid with
      | some agent =>
        if aid ∈ recs.map Prod.fst then
          some (if (ctx.primary_concern = some "budget"
                     ∧ agent.role = AgentRole.BUDGET_OPTIMIZER)
                  ∨ (ctx.primary_concern = some "weather"
                     ∧ agent.role = AgentRole.WEATHER_ANALYST)
                  ∨ (ctx.primary_concern = some "local_insights"
                     ∧ agent.role = AgentRole.LOCAL_EXPERT)
                then 2 else 1)
        else none
      | none => none := by
  unfold calculate_agent_weights
  rw [show recs.foldl (fun ws p => weights_step hub ctx ws p.1) []
        = (recs.map Prod.fst).foldl (weights_step hub ctx) [] from
      (List.foldl_map Prod.fst (weights_step hub ctx) recs []).symm]
  rw [weights_fold_get hub ctx _ [] aid hnd]
  cases hA : dictGet? hub.agents aid with
  | none => by_cases hm : aid ∈ recs.map Prod.fst <;> simp [hm, dictGet?]
  | some agent =>
    by_cases hm : aid ∈ recs.map Prod.fst
    · simp only [hm, if_true, base_weight_for_eq_or]
    · simp [hm, dictGet?]

/-- Witness for C3 on the concrete hub: with `primary_concern = budget`,
the registered `BUDGET_OPTIMIZER` agent `"b"` gets weight `2`. -/
theorem claim_C3_calculate_agent_weights_spec_witness :
    (([("b", 0)] : List (String × Nat)).map Prod.fst).Nodup ∧
    dictGet? (calculate_agent_weights testHub [("b", 0)]
        { primary_concern := some "budget" }) "b" =
      match dictGet? testHub.agents "b" with
      | some agent =>
        if "b" ∈ ([("b", 0)] : List (String × Nat)).map Prod.fst then
          some (if ((some "budget" : Option String) = some "budget"
                     ∧ agent.role = AgentRole.BUDGET_OPTIMIZER)
                  ∨ ((some "budget" : Option String) = some "weather"
                     ∧ agent.role = AgentRole.WEATHER_ANALYST)
                  ∨ ((some "budget" : Option String) = some "local_insights"
                     ∧ agent.role = AgentRole.LOCAL_EXPERT)
                then 2 else 1)
        else none
      | none => none :=
  ⟨by decide,
   claim_C3_calculate_agent_weights_spec testHub [("b", 0)]
     { primary_concern := some "budget" } "b" (by decide)⟩

/-! ### C1: the consensus decision is the first maximal-weight
recommendation -/

theorem pyfold_first_argmax {α : Type} (key : α → ℚ) (xs : List α) :
    ∀ x : α,
      ∃ (i : ℕ) (hi : i < (x :: xs).length),
        xs.foldl (fun best y => if key y > key best then y else best) x
          = (x :: xs).get ⟨i, hi⟩ ∧
        (∀ (j : ℕ) (hj : j < (x :: xs).length),
          key ((x :: xs).get ⟨j, hj⟩) ≤ key ((x :: xs).get ⟨i, hi⟩)) ∧
        (∀ (j : ℕ) (hj : j < (x :: xs).length),
          j < i → key ((x :: xs).get ⟨j, hj⟩) < key ((x :: xs).get ⟨i, hi⟩)) := by
  induction xs with
  | nil =>
    intro x
    refine ⟨0, Nat.succ_pos _, rfl, ?_, ?_⟩
    · intro j hj
      have hj0 : j = 0 := by
        simp only [List.length_cons, List.length_nil] at hj
        omega
      subst hj0
      exact le_refl _
    · intro j hj hlt
      omega
  | cons y ys ih =>
    intro x
    simp only [List.foldl_cons]
    by_cases hxy : key y > key x
    · rw [if_pos hxy]
      obtain ⟨i, hi, heq, hmax, hfirst⟩ := ih y
      have hi' : i + 1 < (x :: y :: ys).length := by
        simp only [List.length_cons] at hi ⊢
        omega
      refine ⟨i + 1, hi', heq, ?_, ?_⟩
      · intro j hj
        cases j with
        | zero => exact le_trans (le_of_lt hxy) (hmax 0 (Nat.succ_pos _))
        | succ j =>
          have hj' : j < (y :: ys).length := by
            simp only [List.length_cons] at hj ⊢
            omega
          exact hmax j hj'
      · intro j hj hlt
        cases j with
        | zero => exact lt_of_lt_of_le hxy (hmax 0 (Nat.succ_pos _))
        | succ j =>
          have hj' : j < (y :: ys).length := by
            simp only [List.length_cons] at hj ⊢
            omega
          exact hfirst j hj' (by omega)
    · rw [if_neg hxy]
      obtain ⟨i, hi, heq, hmax, hfirst⟩ := ih x
      cases i with
      | zero =>
        refine ⟨0, Nat.succ_pos _, heq, ?_, ?_⟩
        · intro j hj
          cases j with
          | zero => exact le_refl _
          | succ j =>
            cases j with
            | zero => exact le_of_not_lt hxy
            | succ j =>
              have hj' : j + 1 < (x :: ys).length := by
                simp only [List.length_cons] at hj ⊢
                omega
              exact hmax (j + 1) hj'
        · intro j hj hlt
          omega
      | succ i' =>
        have hi2 : i' + 2 < (x :: y :: ys).length := by
          simp only [List.length_cons] at hi ⊢
          omega
        refine ⟨i' + 2, hi2, heq, ?_, ?_⟩
        · intro j hj
          cases j with
          | zero => exact hmax 0 (Nat.succ_pos _)
          | succ j =>
            cases j with
            | zero => exact le_trans (le_of_not_lt hxy) (hmax 0 (Nat.succ_pos _))
            | succ j =>
              have hj' : j + 1 < (x :: ys).length := by
                simp only [List.length_cons] at hj ⊢
                omega
              exact hmax (j + 1) hj'
        · intro j hj hlt
          cases j with
          | zero => exact hfirst 0 (Nat.succ_pos _) (by omega)
          | succ j =>
            cases j with
            | zero =>
              exact lt_of_le_of_lt (le_of_not_lt hxy)
                (hfirst 0 (Nat.succ_pos _) (by omega))
            | succ j =>
              have hj' : j + 1 < (x :: ys).length := by
                simp only [List.length_cons] at hj ⊢
                omega
              exact hfirst (j + 1) hj' (by omega)

theorem list_get_map {α β : Type} (f : α → β) (l : List α) (j : ℕ)
    (hj : j < (l.map f).length) (hj' : j < l.length) :
    (l.map f).get ⟨j, hj⟩ = f (l.get ⟨j, hj'⟩) := by
  simp [List.get_eq_getElem, List.getElem_map]

/-- C1: on a nonempty recommendations map `_synthesize_recommendations`
picks the first entry whose weight is maximal (in iteration order) as
`primary_recommendation`, reports that maximal weight as
`confidence_score`, lists every agent's recommendation as
`supporting_evidence` and sets `consensus_level` to `1`; on an empty map
it returns the `None`/`0.0`/`0.0` base decision. -/
theorem claim_C1_synthesize_recommendations_spec {C R : Type} (hub : Hub C)
    (recs : List (String × R)) (ctx : DecisionContext) :
    (synthesize_recommendations hub ([] : List (String × R)) ctx
      = { primary_recommendation := none, confidence_score := 0,
          supporting_evidence := [], alternative_options := [],
          consensus_level := 0 }) ∧
    (recs ≠ [] →
      ∃ (i : ℕ) (hi : i < recs.length),
        (synthesize_recommendations hub recs ctx).primary_recommendation
            = some (recs.get ⟨i, hi⟩).2 ∧
        (synthesize_recommendations hub recs ctx).confidence_score
            = entry_weight hub recs ctx (recs.get ⟨i, hi⟩).1 ∧
        (∀ (j : ℕ) (hj : j < recs.length),
          entry_weight hub recs ctx (recs.get ⟨j, hj⟩).1
            ≤ entry_weight hub recs ctx (recs.get ⟨i, hi⟩).1) ∧
        (∀ (j : ℕ) (hj : j < recs.length), j < i →
          entry_weight hub recs ctx (recs.get ⟨j, hj⟩).1
            < entry_weight hub recs ctx (recs.get ⟨i, hi⟩).1) ∧
        (synthesize_recommendations hub recs ctx).supporting_evidence
            = recs.map Prod.snd ∧
        (synthesize_recommendations hub recs ctx).consensus_level = 1) := by
  refine ⟨rfl, ?_⟩
  intro hne
  cases recs with
  | nil => exact absurd rfl hne
  | cons p rest =>
    set f : String × R → WeightedRec R :=
      fun q => ⟨q.1, q.2, entry_weight hub (p :: rest) ctx q.1⟩ with hf
    have hsyn : synthesize_recommendations hub (p :: rest) ctx =
        { primary_recommendation := some (((rest.map f).foldl
              (fun best y => if y.weight > best.weight then y else best)
              (f p)).recommendation),
          confidence_score := ((rest.map f).foldl
              (fun best y => if y.weight > best.weight then y else best)
              (f p)).weight,
          supporting_evidence := ((p :: rest).map f).map
              (fun wr => wr.recommendation),
          alternative_options := [],
          consensus_level := (((p :: rest).map f).length : ℚ)
              / (((p :: rest) : List (String × R)).length : ℚ) } := rfl
    obtain ⟨i, hi, heq, hmax, hfirst⟩ :=
      pyfold_first_argmax (fun wr => wr.weight) (rest.map f) (f p)
    have hiL : i < (p :: rest).length := by
      simp only [List.length_cons, List.length_map] at hi ⊢
      omega
    have eI : (f p :: rest.map f).get ⟨i, hi⟩ = f ((p :: rest).get ⟨i, hiL⟩) :=
      list_get_map f (p :: rest) i (by simpa using hiL) hiL
    refine ⟨i, hiL, ?_, ?_, ?_, ?_, ?_, ?_⟩
    · rw [hsyn]
      show some _ = _
      rw [heq, eI]
    · rw [hsyn]
      show ((rest.map f).foldl _ (f p)).weight = _
      rw [heq, eI]
    · intro j hj
      have hjm : j < (f p :: rest.map f).length := by
        simp only [List.length_cons, List.length_map] at hj ⊢
        omega
      have eJ : (f p :: rest.map f).get ⟨j, hjm⟩ = f ((p :: rest).get ⟨j, hj⟩) :=
        list_get_map f (p :: rest) j (by simpa using hj) hj
      have h := hmax j hjm
      rw [eJ, eI] at h
      exact h
    · intro j hj hlt
      have hjm : j < (f p :: rest.map f).length := by
        simp only [List.length_cons, List.length_map] at hj ⊢
        omega
      have eJ : (f p :: rest.map f).get ⟨j, hjm⟩ = f ((p :: rest).get ⟨j, hj⟩) :=
        list_get_map f (p :: rest) j (by simpa using hj) hj
      have h := hfirst j hjm hlt
      rw [eJ, eI] at h
      exact h
    · rw [hsyn]
      show ((p :: rest).map f).map (fun wr => wr.recommendation) = _
      rw [List.map_map]
      rfl
    · rw [hsyn]
      show (((p :: rest).map f).length : ℚ) / (((p :: rest) : List (String × R)).length : ℚ) = 1
      rw [List.length_map]
      apply div_self
      simp only [List.length_cons, Nat.cast_add, Nat.cast_one]
      positivity

/-- Witness for C1 on the concrete hub: two recommendations with the
budget optimizer weighted `2`. -/
theorem claim_C1_synthesize_recommendations_spec_witness :
    ([("a", 10), ("b", 20)] : List (String × Nat)) ≠ [] ∧
    ∃ (i : ℕ) (hi : i < ([("a", 10), ("b", 20)] : List (String × Nat)).length),
      (synthesize_recommendations testHub [("a", 10), ("b", 20)]
          { primary_concern := some "budget" }).primary_recommendation
          = some (([("a", 10), ("b", 20)] : List (String × Nat)).get ⟨i, hi⟩).2 ∧
      (synthesize_recommendations testHub [("a", 10), ("b", 20)]
          { primary_concern := some "budget" }).confidence_score
          = entry_weight testHub [("a", 10), ("b", 20)]
              { primary_concern := some "budget" }
              (([("a", 10), ("b", 20)] : List (String × Nat)).get ⟨i, hi⟩).1 ∧
      (∀ (j : ℕ) (hj : j < ([("a", 10), ("b", 20)] : List (String × Nat)).length),
        entry_weight testHub [("a", 10), ("b", 20)]
            { primary_concern := some "budget" }
            (([("a", 10), ("b", 20)] : List (String × Nat)).get ⟨j, hj⟩).1
          ≤ entry_weight testHub [("a", 10), ("b", 20)]
              { primary_concern := some "budget" }
              (([("a", 10), ("b", 20)] : List (String × Nat)).get ⟨i, hi⟩).1) ∧
      (∀ (j : ℕ) (hj : j < ([("a", 10), ("b", 20)] : List (String × Nat)).length),
        j < i →
        entry_weight testHub [("a", 10), ("b", 20)]
            { primary_concern := some "budget" }
            (([("a", 10), ("b", 20)] : List (String × Nat)).get ⟨j, hj⟩).1
          < entry_weight testHub [("a", 10), ("b", 20)]
              { primary_concern := some "budget" }
              (([("a", 10), ("b", 20)] : List (String × Nat)).get ⟨i, hi⟩).1) ∧
      (synthesize_recommendations testHub [("a", 10), ("b", 20)]
          { primary_concern := some "budget" }).supporting_evidence
          = ([("a", 10), ("b", 20)] : List (String × Nat)).map Prod.snd ∧
      (synthesize_recommendations testHub [("a", 10), ("b", 20)]
          { primary_concern := some "budget" }).consensus_level = 1 :=
  ⟨by decide,
   (claim_C1_synthesize_recommendations_spec testHub [("a", 10), ("b", 20)]
     { primary_concern := some "budget" }).2 (by decide)⟩

/-! ### C10: the travel advisor's recommendation branches -/

theorem pyTake_nonneg {α : Type} (k : Int) (l : List α) (h : 0 ≤ k) :
    pyTake k l = l.take k.toNat := by
  unfold pyTake
  rw [if_neg (by omega)]

/-- C10: for a nonnegative duration, `generate_recommendation` returns
confidence `0.9` and the first `min(duration, 4)` must-visit entries when
the lower-cased destination is an expertise key, and otherwise confidence
`0.6` with a four-item `general_advice` list and no `must_visit` entry. -/
theorem claim_C10_advisor_generate_recommendation_spec
    (context : AdvisorContext) (h : 0 ≤ context.duration) :
    (∀ dest_info,
      dictGet? destination_expertise (pyLower context.destination) = some dest_info →
      (advisor_generate_recommendation context).confidence = 0.9 ∧
      dictGet? (advisor_generate_recommendation context).recommendations "must_visit"
        = some (dest_info.must_visit.take (min context.duration.toNat 4))) ∧
    (dictGet? destination_expertise (pyLower context.destination) = none →
      (advisor_generate_recommendation context).confidence = 0.6 ∧
      dictGet? (advisor_generate_recommendation context).recommendations "must_visit"
        = none ∧
      ∃ advice,
        dictGet? (advisor_generate_recommendation context).recommendations
            "general_advice" = some advice ∧ advice.length = 4) := by
  constructor
  · intro dest_info hEq
    have hlen : dest_info.must_visit.length = 4 := by
      have h4 := hEq
      unfold destination_expertise at h4
      rw [dictGet?_cons, dictGet?_cons, dictGet?_cons] at h4
      split_ifs at h4 <;>
        first
          | (injection h4 with h4; subst h4; rfl)
          | simp [dictGet?] at h4
    have hminEq : (min context.duration
          ((dest_info.must_visit.length : ℕ) : Int)).toNat
        = min context.duration.toNat 4 := by
      rw [hlen]
      omega
    have hfinal : some (pyTake
          (min context.duration ((dest_info.must_visit.length : ℕ) : Int))
          dest_info.must_visit)
        = some (dest_info.must_visit.take (min context.duration.toNat 4)) := by
      rw [pyTake_nonneg _ _ (le_min h (by positivity)), hminEq]
    constructor
    · unfold advisor_generate_recommendation
      dsimp only
      rw [hEq]
    · unfold advisor_generate_recommendation
      dsimp only
      rw [hEq]
      dsimp only
      rw [dictGet?_dictSet_ne _ _ _ _ (by decide),
        dictGet?_dictSet_ne _ _ _ _ (by decide),
        dictGet?_dictSet_ne _ _ _ _ (by decide)]
      by_cases hfood : "food" ∈ context.interests
      · rw [if_pos hfood, dictGet?_dictSet_ne _ _ _ _ (by decide)]
        by_cases hcult : "culture" ∈ context.interests ∨ "history" ∈ context.interests
        · rw [if_pos hcult, dictGet?_dictSet_ne _ _ _ _ (by decide),
            dictGet?_dictSet_self]
          exact hfinal
        · rw [if_neg hcult, dictGet?_dictSet_self]
          exact hfinal
      · rw [if_neg hfood]
        by_cases hcult : "culture" ∈ context.interests ∨ "history" ∈ context.interests
        · rw [if_pos hcult, dictGet?_dictSet_ne _ _ _ _ (by decide),
            dictGet?_dictSet_self]
          exact hfinal
        · rw [if_neg hcult, dictGet?_dictSet_self]
          exact hfinal
  · intro hEq
    unfold advisor_generate_recommendation
    dsimp only
    rw [hEq]
    dsimp only
    exact ⟨rfl, by decide,
      ⟨["研究当地习俗和礼仪", "下载离线地图和翻译应用",
        "尝试当地美食和特色菜", "既要游览著名地标，也要探索当地社区"],
       by decide, by decide⟩⟩

/-- Witness for C10 at destination `北京` with duration 2. -/
theorem claim_C10_advisor_generate_recommendation_spec_witness :
    (0 : Int) ≤ (2 : Int) ∧
    ((∀ dest_info,
      dictGet? destination_expertise
          (pyLower (AdvisorContext.mk "北京" [] 2).destination) = some dest_info →
      (advisor_generate_recommendation (AdvisorContext.mk "北京" [] 2)).confidence
          = 0.9 ∧
      dictGet? (advisor_generate_recommendation
          (AdvisorContext.mk "北京" [] 2)).recommendations "must_visit"
        = some (dest_info.must_visit.take
            (min (AdvisorContext.mk "北京" [] 2).duration.toNat 4))) ∧
    (dictGet? destination_expertise
        (pyLower (AdvisorContext.mk "北京" [] 2).destination) = none →
      (advisor_generate_recommendation (AdvisorContext.mk "北京" [] 2)).confidence
          = 0.6 ∧
      dictGet? (advisor_generate_recommendation
          (AdvisorContext.mk "北京" [] 2)).recommendations "must_visit" = none ∧
      ∃ advice,
        dictGet? (advisor_generate_recommendation
            (AdvisorContext.mk "北京" [] 2)).recommendations "general_advice"
          = some advice ∧ advice.length = 4)) :=
  ⟨by decide,
   claim_C10_advisor_generate_recommendation_spec
     (AdvisorContext.mk "北京" [] 2) (by decide)⟩

/-! ### C9: the hotel price estimate -/

theorem roundHalfEven_dist (q : ℚ) : |(roundHalfEven q : ℚ) - q| ≤ 1/2 := by
  have h1 : (⌊q⌋ : ℚ) ≤ q := Int.floor_le q
  have h2 : q < ⌊q⌋ + 1 := Int.lt_floor_add_one q
  unfold roundHalfEven
  split_ifs with ha hb hc <;> rw [abs_le] <;> constructor <;> push_cast <;> linarith

theorem pyRound2_dist (q : ℚ) : |pyRound2 q - q| ≤ 1/200 := by
  have h := roundHalfEven_dist (q * 100)
  unfold pyRound2
  rw [show (roundHalfEven (q * 100) : ℚ) / 100 - q
      = ((roundHalfEven (q * 100) : ℚ) - q * 100) / 100 by ring]
  rw [abs_div, show |(100 : ℚ)| = 100 by norm_num]
  linarith

theorem dictGet?_mem_values {κ α : Type} [BEq κ] (l : List (κ × α)) (k : κ) (v : α)
    (h : dictGet? l k = some v) : ∃ p ∈ l, p.2 = v := by
  unfold dictGet? at h
  cases hf : l.find? (fun p => p.1 == k) with
  | none =>
    rw [hf] at h
    exact Option.noConfusion h
  | some p =>
    rw [hf] at h
    exact ⟨p, List.mem_of_find?_eq_some hf, Option.some_injective _ h⟩

theorem budget_avg_eq (b : String) :
    ((dictGet? budget_price_ranges b).getD
        ((dictGet? budget_price_ranges "中等预算").getD { lo := 0, hi := 0, avg := 0 })).avg
      = (match dictGet? budget_price_ranges b with
         | some row => row.avg
         | none => 910) := by
  cases hA : dictGet? budget_price_ranges b with
  | some row => rfl
  | none => decide

theorem city_mult_eq (d : String) :
    (dictGet? city_multipliers d).getD ((dictGet? city_multipliers "default").getD 0)
      = (match dictGet? city_multipliers d with
         | some m => m
         | none => 1) := by
  cases hA : dictGet? city_multipliers d with
  | some m => rfl
  | none =>
    show (dictGet? city_multipliers "default").getD 0 = 1
    unfold city_multipliers
    rw [dictGet?_cons, if_neg (by decide), dictGet?_cons, if_neg (by decide),
      dictGet?_cons, if_neg (by decide), dictGet?_cons, if_neg (by decide),
      dictGet?_cons, if_neg (by decide), dictGet?_cons, if_neg (by decide),
      dictGet?_cons, if_neg (by decide), dictGet?_cons, if_neg (by decide),
      dictGet?_cons, if_pos rfl]
    norm_num

theorem plevel_eq (pl : Int) :
    (dictGet? price_level_multipliers pl).getD 1.0
      = (if 0 ≤ pl ∧ pl ≤ 4 then (dictGet? price_level_multipliers pl).getD 1 else 1) := by
  by_cases hin : 0 ≤ pl ∧ pl ≤ 4
  · rw [if_pos hin]
    norm_num
  · rw [if_neg hin]
    have hnone : dictGet? price_level_multipliers pl = none := by
      unfold price_level_multipliers
      rw [dictGet?_cons, if_neg (by omega), dictGet?_cons, if_neg (by omega),
        dictGet?_cons, if_neg (by omega), dictGet?_cons, if_neg (by omega),
        dictGet?_cons, if_neg (by omega)]
      rfl
    rw [hnone]
    norm_num

theorem rating_mult_eq (rating : ℚ) :
    (if rating ≥ 4.5 then (1.2 : ℚ)
     else if rating ≥ 4.0 then 1.1
     else if rating < 3.5 then 0.9
     else 1.0)
      = (if 4.5 ≤ rating then 1.2
         else if 4 ≤ rating ∧ rating < 4.5 then 1.1
         else if rating < 3.5 then 0.9
         else 1) := by
  by_cases h45 : rating ≥ 4.5
  · rw [if_pos h45, if_pos h45]
  · rw [if_neg h45, if_neg h45]
    by_cases h4 : rating ≥ 4.0
    · rw [if_pos h4, if_pos (show 4 ≤ rating ∧ rating < 4.5 from
        ⟨by linarith, lt_of_not_ge h45⟩)]
    · rw [if_neg h4, if_neg (show ¬(4 ≤ rating ∧ rating < 4.5) from
        fun hc => h4 (by linarith [hc.1]))]
      by_cases h35 : rating < 3.5
      · rw [if_pos h35, if_pos h35]
      · rw [if_neg h35, if_neg h35]
        norm_num

theorem estimate_eq_round (destination budget_range : String) (price_level : Int)
    (rating r : ℚ) :
    estimate_hotel_price destination budget_range price_level rating r
      = pyRound2 (claim_base_price destination budget_range price_level rating * r) := by
  unfold estimate_hotel_price
  dsimp only
  conv_lhs => rw [budget_avg_eq budget_range, city_mult_eq (pyLower destination),
    plevel_eq price_level, rating_mult_eq rating]
  rfl

theorem claim_base_price_pos (destination budget_range : String) (price_level : Int)
    (rating : ℚ) :
    0 < claim_base_price destination budget_range price_level rating := by
  unfold claim_base_price
  refine mul_pos (mul_pos (mul_pos ?_ ?_) ?_) ?_
  · cases hA : dictGet? budget_price_ranges budget_range with
    | none => norm_num
    | some row =>
      obtain ⟨p, hp, he⟩ := dictGet?_mem_values _ _ _ hA
      subst he
      fin_cases hp <;> norm_num [budget_price_ranges]
  · cases hA : dictGet? city_multipliers (pyLower destination) with
    | none => norm_num
    | some m =>
      obtain ⟨p, hp, he⟩ := dictGet?_mem_values _ _ _ hA
      subst he
      fin_cases hp <;> norm_num [city_multipliers]
  · split_ifs with hin
    · cases hA : dictGet? price_level_multipliers price_level with
      | none => norm_num
      | some m =>
        obtain ⟨p, hp, he⟩ := dictGet?_mem_values _ _ _ hA
        subst he
        fin_cases hp <;> norm_num [price_level_multipliers]
    · norm_num
  · split_ifs <;> norm_num

/-- C9: `_estimate_hotel_price` returns `round(base * r, 2)` where `base`
is the deterministic product of the budget-range average, city multiplier,
price-level multiplier and rating multiplier, and `r` models
`random.uniform(0.9, 1.1)`; for `r` in `[0.9, 1.1]` the result lies within
rounding distance of `[0.9 * base, 1.1 * base]`. -/
theorem claim_C9_estimate_hotel_price_spec (destination budget_range : String)
    (price_level : Int) (rating r : ℚ) (h1 : 0.9 ≤ r) (h2 : r ≤ 1.1) :
    estimate_hotel_price destination budget_range price_level rating r
      = pyRound2 (claim_base_price destination budget_range price_level rating * r) ∧
    0.9 * claim_base_price destination budget_range price_level rating - 1/200
      ≤ estimate_hotel_price destination budget_range price_level rating r ∧
    estimate_hotel_price destination budget_range price_level rating r
      ≤ 1.1 * claim_base_price destination budget_range price_level rating + 1/200 := by
  have heq := estimate_eq_round destination budget_range price_level rating r
  have hpos := claim_base_price_pos destination budget_range price_level rating
  have hd := pyRound2_dist
    (claim_base_price destination budget_range price_level rating * r)
  rw [abs_le] at hd
  have hr1 : (0.9 : ℚ) * claim_base_price destination budget_range price_level rating
      ≤ claim_base_price destination budget_range price_level rating * r := by
    nlinarith [mul_nonneg (le_of_lt hpos) (sub_nonneg.mpr h1)]
  have hr2 : claim_base_price destination budget_range price_level rating * r
      ≤ 1.1 * claim_base_price destination budget_range price_level rating := by
    nlinarith [mul_nonneg (le_of_lt hpos) (sub_nonneg.mpr h2)]
  refine ⟨heq, ?_, ?_⟩
  · rw [heq]
    linarith [hd.1, hr1]
  · rw [heq]
    linarith [hd.2, hr2]

/-- Witness for C9: 北京, 经济型, price level 2, rating 4.0, `r = 1`. -/
theorem claim_C9_estimate_hotel_price_spec_witness :
    (0.9 : ℚ) ≤ 1 ∧ (1 : ℚ) ≤ 1.1 ∧
    (estimate_hotel_price "北京" "经济型" 2 4.0 1
        = pyRound2 (claim_base_price "北京" "经济型" 2 4.0 * 1) ∧
      0.9 * claim_base_price "北京" "经济型" 2 4.0 - 1/200
        ≤ estimate_hotel_price "北京" "经济型" 2 4.0 1 ∧
      estimate_hotel_price "北京" "经济型" 2 4.0 1
        ≤ 1.1 * claim_base_price "北京" "经济型" 2 4.0 + 1/200) :=
  ⟨by norm_num, by norm_num,
   claim_C9_estimate_hotel_price_spec "北京" "经济型" 2 4.0 1
     (by norm_num) (by norm_num)⟩

end TravelMAS
